import Mathlib

/-!
Shallow embedding of the hidro_system scheduler core, translated from
`src/gpio_controller.js` (GPIOController, DHT11 read path) and the
`Scheduler` class of `src/app.js`, together with the configuration
constants of `src/config.js`.  Stateful JavaScript is modelled by
explicit state passing; the node timer layer (cron tasks, setTimeout,
setInterval) is modelled as an explicit timer environment; fallible
calls return `Option` values, `none` standing for a thrown exception.
-/

namespace Hidro

/-- Severity of a `saveSystemLog` row (the level column). -/
inductive LogLevel where
  | info
  | warn
  | error
deriving DecidableEq

/-- The source column of a `saveSystemLog` row. -/
inductive LogSource where
  | gpioController
  | scheduler
deriving DecidableEq

/-- One `system_logs` row: we keep level and source, the message text
carries no information the claims need. -/
structure LogEntry where
  level : LogLevel
  source : LogSource
deriving DecidableEq

/-- `config.gpio.relePins` from `src/config.js`. -/
def relePins : List Nat := [2, 3, 4, 18]

/-- `config.gpio.releActiveLow` from `src/config.js`. -/
def releActiveLow : Bool := true

/-- `rpio.LOW`. -/
def rpioLOW : Nat := 0

/-- `rpio.HIGH`. -/
def rpioHIGH : Nat := 1

/-- The pin level written for a desired relay state
(`controlRele` lines 157-162 of `src/gpio_controller.js`). -/
def pinLevelFor (state : Bool) : Nat :=
  if releActiveLow then (if state then rpioLOW else rpioHIGH)
  else (if state then rpioHIGH else rpioLOW)

/-- The mutable state owned by `GPIOController` together with the
traces of its external effects: every attempted `rpio.write`, every
`saveReleState` row, every `saveSensorReading` row and every
`saveSystemLog` row it issued. -/
structure GpioState where
  releStates : List Bool
  writes : List (Nat × Nat)
  releRows : List (Int × Bool)
  sensorRows : List (ℚ × ℚ)
  logs : List LogEntry
deriving DecidableEq

/-- `GPIOController.controlRele(releId, state, reason)`
(`src/gpio_controller.js` lines 147-191).  `writeOk` says whether the
`rpio.write` hardware call succeeds; a `none` result models the thrown
`Error` for an out-of-range relay id, which happens before any other
effect, so the state is returned untouched. -/
def controlRele (g : GpioState) (writeOk : Bool) (releId : Int) (state : Bool) :
    Option Bool × GpioState :=
  if releId < 1 ∨ 4 < releId then (none, g)
  else
    let pinIndex := (releId - 1).toNat
    let pin := relePins.getD pinIndex 0
    let g1 := { g with writes := g.writes ++ [(pin, pinLevelFor state)] }
    if writeOk then
      (some true,
        { g1 with
            releStates := g1.releStates.set pinIndex state
            releRows := g1.releRows ++ [(releId, state)]
            logs := g1.logs ++ [⟨.info, .gpioController⟩] })
    else
      (some false, { g1 with logs := g1.logs ++ [⟨.error, .gpioController⟩] })

/-- `GPIOController.getReleState(releId)`
(`src/gpio_controller.js` lines 196-202); `none` models the throw. -/
def getReleState (g : GpioState) (releId : Int) : Option Bool :=
  if releId < 1 ∨ 4 < releId then none
  else some (g.releStates.getD (releId - 1).toNat false)

/-- What `this.dht11.read()` hands to `readDHT11`: possibly no object at
all, and the temperature/humidity fields may each be null. -/
structure RawReading where
  temperature : Option ℚ
  humidity : Option ℚ
deriving DecidableEq

/-- `parseFloat(x.toFixed(1))`: round to one decimal place. -/
def roundTenth (x : ℚ) : ℚ := (round (x * 10) : ℤ) / 10

/-- `GPIOController.checkThresholds` (`src/gpio_controller.js` lines
126-142), with the shipped `config.sensors.thresholds`
(temperature 18-28, humidity 40-80). -/
def checkThresholds (g : GpioState) (t h : ℚ) : GpioState :=
  let g1 :=
    if t < 18 ∨ 28 < t then { g with logs := g.logs ++ [⟨.warn, .gpioController⟩] } else g
  if h < 40 ∨ 80 < h then { g1 with logs := g1.logs ++ [⟨.warn, .gpioController⟩] } else g1

/-- `GPIOController.readDHT11()` (`src/gpio_controller.js` lines
93-121): a missing or null-fielded readout raises the internal error,
which is caught, logged as an error row, and turned into a null result;
a valid readout is rounded, persisted and threshold-checked. -/
def readDHT11 (g : GpioState) (readout : Option RawReading) :
    Option (ℚ × ℚ) × GpioState :=
  match readout with
  | none => (none, { g with logs := g.logs ++ [⟨.error, .gpioController⟩] })
  | some r =>
    match r.temperature, r.humidity with
    | some t0, some h0 =>
        let t := roundTenth t0
        let h := roundTenth h0
        let g1 := { g with sensorRows := g.sensorRows ++ [(t, h)] }
        (some (t, h), checkThresholds g1 t h)
    | _, _ => (none, { g with logs := g.logs ++ [⟨.error, .gpioController⟩] })

/-- An `HH:mm` wall-clock time as the two numbers that
`split(':').map(Number)` / `moment(x, 'HH:mm')` extract from it. -/
structure Hm where
  hour : Nat
  minute : Nat
deriving DecidableEq

/-- One row of the `schedules` table as consumed by the `Scheduler`
class of `src/app.js` (`getActiveSchedules` already filters on
`is_active`, so loaded schedules carry no enabled flag). -/
structure Schedule where
  id : Nat
  rele_id : Int
  day_of_week : Nat
  start_time : Hm
  end_time : Hm
deriving DecidableEq

/-- The `condition_type` column (`'temperature'`, `'humidity'`, or any
other string, which leaves `currentValue` at its initial 0). -/
inductive CondType where
  | temperature
  | humidity
  | other
deriving DecidableEq

/-- The `operator` column; `unknown` stands for any string other than
the five recognised ones. -/
inductive CondOp where
  | gt
  | lt
  | ge
  | le
  | eq
  | unknown
deriving DecidableEq

/-- The `action` column. -/
inductive CondAction where
  | activate
  | deactivate
  | other
deriving DecidableEq

/-- One row of the `conditions` table. -/
structure Condition where
  id : Nat
  rele_id : Int
  condition_type : CondType
  operator : CondOp
  threshold_value : ℚ
  action : CondAction
  duration : Int
deriving DecidableEq

/-- Seconds after midnight of an `HH:mm` time; `moment` diffs of two
same-day `HH:mm` stamps are exactly differences of this. -/
def timeSeconds (t : Hm) : Int := t.hour * 3600 + t.minute * 60

/-- The ON-duration computed by `executeSchedule`
(`src/app.js` lines 641-648): the raw difference in seconds, plus 24
hours when it is strictly negative. -/
def scheduleDuration (s : Schedule) : Int :=
  let d := timeSeconds s.end_time - timeSeconds s.start_time
  if d < 0 then d + 24 * 60 * 60 else d

/-- `currentValue` as computed at the top of `evaluateCondition`
(`src/app.js` lines 731-738): initialised to 0 and overwritten only for
the two recognised condition types. -/
def currentValueFor (c : Condition) (temperature humidity : ℚ) : ℚ :=
  match c.condition_type with
  | .temperature => temperature
  | .humidity => humidity
  | .other => 0

/-- `Scheduler.evaluateCondition` (`src/app.js` lines 728-770) reduced
to its decision: `some b` means the switch produced `shouldActivate = b`,
`none` means the unknown-operator warning path that evaluates nothing. -/
def evaluateCondition (c : Condition) (temperature humidity : ℚ) : Option Bool :=
  let currentValue := currentValueFor c temperature humidity
  match c.operator with
  | .gt => some (decide (c.threshold_value < currentValue))
  | .lt => some (decide (currentValue < c.threshold_value))
  | .ge => some (decide (c.threshold_value ≤ currentValue))
  | .le => some (decide (currentValue ≤ c.threshold_value))
  | .eq => some (decide (|currentValue - c.threshold_value| < 1/2))
  | .unknown => none

/-- A five-field cron expression of the shapes this program builds:
`minute hour * * dayOfWeek` (schedules) and `minute hour * * *`
(maintenance tasks, `dayOfWeek = none`). -/
structure CronExpr where
  minute : Nat
  hour : Nat
  dayOfWeek : Option Nat
deriving DecidableEq

/-- Modelled from the spec: the `node-cron` library is outside this
repository.  Its pattern validation accepts minutes 0-59, hours 0-23
and week days 0-7, and `cron.schedule` throws on anything else — the
repository's own `SOLUCION_PROGRAMADOR.md` records exactly this throw
(`24 is a invalid expression for hour`) for the expression
`0 24 * * *`. -/
def cronExprValid (e : CronExpr) : Bool :=
  decide (e.minute ≤ 59) && decide (e.hour ≤ 23) &&
    (match e.dayOfWeek with
     | none => true
     | some d => decide (d ≤ 7))

/-- What a cron task will run when it fires. -/
inductive TaskPayload where
  | sched (s : Schedule)
  | backup
  | logCleanup
deriving DecidableEq

/-- A created `node-cron` task: it exists in the timer layer from
creation on, whether or not the caller still holds a reference. -/
structure CronTask where
  tid : Nat
  expr : CronExpr
  payload : TaskPayload
  running : Bool
deriving DecidableEq

/-- An armed `setTimeout`, i.e. a pending deactivation: the callback
closes over the relay id, the target level (`false`) and the rule that
armed it. -/
structure TimeoutEntry where
  tid : Nat
  fireAtMs : Int
  rele_id : Int
  level : Bool
  fromSchedule : Bool
  originId : Nat
deriving DecidableEq

/-- The node timer layer: all cron tasks ever created (with their
running flag), all armed `setTimeout`s and all `setInterval` handles. -/
structure TimerEnv where
  nextId : Nat
  cronTasks : List CronTask
  timeouts : List TimeoutEntry
  intervals : List Nat
deriving DecidableEq

/-- `cron.schedule(expr, cb, scheduled:false)`: validates the
expression (throwing, modelled as `none`, on an invalid one) and
otherwise creates a stopped task. -/
def cronSchedule (env : TimerEnv) (e : CronExpr) (p : TaskPayload) :
    Option (Nat × TimerEnv) :=
  if cronExprValid e then
    some (env.nextId,
      { env with
          nextId := env.nextId + 1
          cronTasks := env.cronTasks ++ [⟨env.nextId, e, p, false⟩] })
  else none

/-- `task.start()`. -/
def startTask (env : TimerEnv) (tid : Nat) : TimerEnv :=
  { env with
      cronTasks := env.cronTasks.map fun t =>
        if t.tid = tid then { t with running := true } else t }

/-- `task.stop()`. -/
def stopTask (env : TimerEnv) (tid : Nat) : TimerEnv :=
  { env with
      cronTasks := env.cronTasks.map fun t =>
        if t.tid = tid then { t with running := false } else t }

/-- `setTimeout(cb, ms)` arming a deactivation. -/
def setTimeoutAt (env : TimerEnv) (fireAtMs : Int) (releId : Int)
    (fromSchedule : Bool) (originId : Nat) : TimerEnv :=
  { env with
      nextId := env.nextId + 1
      timeouts := env.timeouts ++ [⟨env.nextId, fireAtMs, releId, false, fromSchedule, originId⟩] }

/-- `setInterval(cb, ms)` whose handle the source discards. -/
def setIntervalTimer (env : TimerEnv) : TimerEnv :=
  { env with
      nextId := env.nextId + 1
      intervals := env.intervals ++ [env.nextId] }

/-- `Map.prototype.set`: replace the value under an existing key in
place, otherwise append at the end (JS maps keep insertion order). -/
def mapSet {α : Type} (m : List (Nat × α)) (k : Nat) (v : α) : List (Nat × α) :=
  if m.any fun p => p.1 = k then
    m.map fun p => if p.1 = k then (k, v) else p
  else m ++ [(k, v)]

/-- The mutable fields of the `Scheduler` class of `src/app.js`
(lines 504-513) together with the timer layer and the two log sinks it
writes to (`console.error` calls and `saveSystemLog` rows). -/
structure SchedState where
  activeSchedules : List (Nat × Nat)
  activeConditions : List (Nat × Condition)
  scheduledTasks : List (Nat × Nat)
  isRunning : Bool
  env : TimerEnv
  console : List LogEntry
  db : List LogEntry
deriving DecidableEq

/-- `Scheduler.createCronExpression(schedule)` (`src/app.js` lines
615-624): `startMinute startHour * * day_of_week`, with no validation
of its own. -/
def createCronExpression (s : Schedule) : CronExpr :=
  ⟨s.start_time.minute, s.start_time.hour, some s.day_of_week⟩

/-- `Scheduler.addSchedule(schedule)` (`src/app.js` lines 580-610):
create the cron task (its own try/catch turns a validation throw into a
logged console error with no other effect), record it under
`schedule_<id>` and start it. -/
def addSchedule (st : SchedState) (s : Schedule) : SchedState :=
  match cronSchedule st.env (createCronExpression s) (.sched s) with
  | none => { st with console := st.console ++ [⟨.error, .scheduler⟩] }
  | some (tid, env1) =>
      { st with
          env := startTask env1 tid
          activeSchedules := mapSet st.activeSchedules s.id tid }

/-- `Scheduler.addCondition(condition)` (`src/app.js` lines 677-688). -/
def addCondition (st : SchedState) (c : Condition) : SchedState :=
  { st with activeConditions := mapSet st.activeConditions c.id c }

/-- `Scheduler.loadActiveSchedules()` (`src/app.js` lines 544-557):
a database failure is caught here and merely logged to the console;
on success every loaded schedule is registered. -/
def loadActiveSchedules (st : SchedState) (res : Except Unit (List Schedule)) :
    SchedState :=
  match res with
  | .ok ss => ss.foldl addSchedule st
  | .error _ => { st with console := st.console ++ [⟨.error, .scheduler⟩] }

/-- `Scheduler.loadActiveConditions()` (`src/app.js` lines 562-575). -/
def loadActiveConditions (st : SchedState) (res : Except Unit (List Condition)) :
    SchedState :=
  match res with
  | .ok cs => cs.foldl addCondition st
  | .error _ => { st with console := st.console ++ [⟨.error, .scheduler⟩] }

/-- `Scheduler.startScheduledTasks()` (`src/app.js` lines 825-851):
if backups are enabled, create and start `0 <frequency> * * *`, then
create and start the log-cleanup task `0 2 * * *`.  The method has no
try/catch, so a cron validation throw (modelled as `none`) propagates
to the caller. -/
def startScheduledTasks (backupEnabled : Bool) (backupFrequency : Nat)
    (st : SchedState) : Option SchedState :=
  let step1 : Option SchedState :=
    if backupEnabled then
      match cronSchedule st.env ⟨0, backupFrequency, none⟩ .backup with
      | none => none
      | some (tid, env1) =>
          some { st with
                   env := startTask env1 tid
                   scheduledTasks := mapSet st.scheduledTasks 0 tid }
    else some st
  match step1 with
  | none => none
  | some st1 =>
      match cronSchedule st1.env ⟨0, 2, none⟩ .logCleanup with
      | none => none
      | some (tid, env1) =>
          some { st1 with
                   env := startTask env1 tid
                   scheduledTasks := mapSet st1.scheduledTasks 1 tid }

/-- `Scheduler.startConditionChecker()` (`src/app.js` lines 693-699):
a `setInterval` whose handle is never stored. -/
def startConditionChecker (st : SchedState) : SchedState :=
  { st with env := setIntervalTimer st.env }

/-- `Scheduler.init()` (`src/app.js` lines 518-539): load schedules and
conditions (each load swallows its own errors), then start the
maintenance tasks and the condition checker and set `isRunning`.  A
throw out of `startScheduledTasks` lands in `init`'s catch, which logs
an error to console and database and leaves `isRunning` as it was. -/
def init (backupEnabled : Bool) (backupFrequency : Nat) (st : SchedState)
    (schedRes : Except Unit (List Schedule))
    (condRes : Except Unit (List Condition)) : SchedState :=
  let st1 := loadActiveSchedules st schedRes
  let st2 := loadActiveConditions st1 condRes
  match startScheduledTasks backupEnabled backupFrequency st2 with
  | none =>
      { st2 with
          console := st2.console ++ [⟨.error, .scheduler⟩]
          db := st2.db ++ [⟨.error, .scheduler⟩] }
  | some st3 =>
      let st4 := startConditionChecker st3
      { st4 with
          isRunning := true
          db := st4.db ++ [⟨.info, .scheduler⟩] }

/-- `Scheduler.stop()` (`src/app.js` lines 915-936): stop each task
held in `scheduledTasks` (and only those), clear the three maps, clear
`isRunning`, log. -/
def stop (st : SchedState) : SchedState :=
  let env := st.scheduledTasks.foldl (fun e p => stopTask e p.2) st.env
  { st with
      env := env
      activeSchedules := []
      activeConditions := []
      scheduledTasks := []
      isRunning := false
      db := st.db ++ [⟨.info, .scheduler⟩] }

/-- `Scheduler.restart()` (`src/app.js` lines 941-953):
`this.stop(); await this.init();`. -/
def restart (backupEnabled : Bool) (backupFrequency : Nat) (st : SchedState)
    (schedRes : Except Unit (List Schedule))
    (condRes : Except Unit (List Condition)) : SchedState :=
  init backupEnabled backupFrequency (stop st) schedRes condRes

/-- `config.backup.enabled` from `src/config.js`. -/
def configBackupEnabled : Bool := true

/-- `config.backup.frequency` from `src/config.js` (hours, used
verbatim as the cron hour field). -/
def configBackupFrequency : Nat := 24

/-- `Scheduler.executeSchedule(schedule)` (`src/app.js` lines 629-672):
switch the relay on, arm the deactivation `setTimeout` for
`scheduleDuration` seconds later, log.  A throw from `controlRele`
(invalid relay id) is caught and logged; the `false` return of a failed
hardware write is ignored and execution continues. -/
def executeSchedule (st : SchedState) (g : GpioState) (writeOk : Bool)
    (nowMs : Int) (s : Schedule) : SchedState × GpioState :=
  match controlRele g writeOk s.rele_id true with
  | (none, g1) =>
      ({ st with
           console := st.console ++ [⟨.error, .scheduler⟩]
           db := st.db ++ [⟨.error, .scheduler⟩] }, g1)
  | (some _, g1) =>
      let st1 :=
        { st with
            env := setTimeoutAt st.env (nowMs + scheduleDuration s * 1000) s.rele_id true s.id }
      ({ st1 with db := st1.db ++ [⟨.info, .scheduler⟩] }, g1)

/-- `Scheduler.executeCondition(condition, currentValue)`
(`src/app.js` lines 775-820): activate (arming a deactivation
`setTimeout` only when `duration > 0`) or deactivate, then log; a
throw from `controlRele` is caught and logged. -/
def executeCondition (st : SchedState) (g : GpioState) (writeOk : Bool)
    (nowMs : Int) (c : Condition) : SchedState × GpioState :=
  match c.action with
  | .activate =>
      match controlRele g writeOk c.rele_id true with
      | (none, g1) =>
          ({ st with
               console := st.console ++ [⟨.error, .scheduler⟩]
               db := st.db ++ [⟨.error, .scheduler⟩] }, g1)
      | (some _, g1) =>
          let st1 :=
            if 0 < c.duration then
              { st with
                  env := setTimeoutAt st.env (nowMs + c.duration * 1000) c.rele_id false c.id }
            else st
          ({ st1 with db := st1.db ++ [⟨.info, .scheduler⟩] }, g1)
  | .deactivate =>
      match controlRele g writeOk c.rele_id false with
      | (none, g1) =>
          ({ st with
               console := st.console ++ [⟨.error, .scheduler⟩]
               db := st.db ++ [⟨.error, .scheduler⟩] }, g1)
      | (some _, g1) =>
          ({ st with db := st.db ++ [⟨.info, .scheduler⟩] }, g1)
  | .other =>
      ({ st with db := st.db ++ [⟨.info, .scheduler⟩] }, g)

/-- One iteration of the `for` loop of `checkConditions`: evaluate the
condition against the shared sample and execute it when it holds. -/
def runOneCondition (writeOk : Bool) (nowMs : Int) (t h : ℚ)
    (acc : SchedState × GpioState) (c : Condition) : SchedState × GpioState :=
  match evaluateCondition c t h with
  | some true => executeCondition acc.1 acc.2 writeOk nowMs c
  | _ => acc

/-- `Scheduler.checkConditions()` (`src/app.js` lines 704-723): sample
once via `readDHT11`; on a null sample return at once, otherwise
evaluate every active condition against the single sample. -/
def checkConditions (st : SchedState) (g : GpioState) (writeOk : Bool)
    (nowMs : Int) (readout : Option RawReading) : SchedState × GpioState :=
  match readDHT11 g readout with
  | (none, g1) => (st, g1)
  | (some (t, h), g1) =>
      st.activeConditions.foldl (fun acc p => runOneCondition writeOk nowMs t h acc p.2) (st, g1)

/-- The task ids of the started cron tasks that fire a schedule: the
live schedule triggers of the timer layer. -/
def liveScheduleTriggers (st : SchedState) : List Nat :=
  (st.env.cronTasks.filter fun t =>
    t.running && (match t.payload with | .sched _ => true | _ => false)).map
    fun t => t.tid

/-- The initial relay state of `GPIOController` (line 15), with empty
effect traces. -/
def g0 : GpioState := ⟨[false, false, false, false], [], [], [], []⟩

/-- A fresh `Scheduler` before `init` runs: empty maps, no timers. -/
def st0 : SchedState := ⟨[], [], [], false, ⟨0, [], [], []⟩, [], []⟩

/-- Demo schedule: relay 1, Monday, 08:00-18:00. -/
def sA : Schedule := ⟨1, 1, 1, ⟨8, 0⟩, ⟨18, 0⟩⟩

/-- The ON-duration the claim's own branch formula assigns, literally
from its words: `T2−T1` when `T2>T1`, else `(24h−T1)+T2`. -/
def claimBranchDuration (t1 t2 : Hm) : Int :=
  if timeSeconds t1 < timeSeconds t2 then timeSeconds t2 - timeSeconds t1
  else (86400 - timeSeconds t1) + timeSeconds t2

/-- Demo schedule whose start and end coincide (08:00-08:00). -/
def sEq : Schedule := ⟨2, 1, 1, ⟨8, 0⟩, ⟨8, 0⟩⟩

/-- `init` run on a fresh scheduler with the shipped `config.js`
(backup enabled, frequency 24) and one active schedule. -/
def initShipped : SchedState :=
  init configBackupEnabled configBackupFrequency st0 (.ok [sA]) (.ok [])

/-- One `restart` after `initShipped`, same store contents. -/
def restartOnce : SchedState :=
  restart configBackupEnabled configBackupFrequency initShipped (.ok [sA]) (.ok [])

/-- A second `restart` immediately after the first. -/
def restartTwice : SchedState :=
  restart configBackupEnabled configBackupFrequency restartOnce (.ok [sA]) (.ok [])

/-- `executeSchedule` fired once for `sA` on a fresh state. -/
def c1Once : SchedState × GpioState := executeSchedule st0 g0 true 0 sA

/-- A second `executeSchedule` for the same schedule one minute later. -/
def c1Twice : SchedState × GpioState := executeSchedule c1Once.1 c1Once.2 true 60000 sA

/-- Demo condition for the arming witness: relay 2, temperature > 30,
activate with a 900 second hold. -/
def c1Cond : Condition := ⟨5, 2, .temperature, .gt, 30, .activate, 900⟩

/-- Demo condition for the failed-sampling scenario: relay 2,
temperature > 30, activate with a 900 second hold. -/
def c5Cond : Condition := ⟨1, 2, .temperature, .gt, 30, .activate, 900⟩

/-- A scheduler holding one active condition. -/
def c5State : SchedState := ⟨[], [(1, c5Cond)], [], true, ⟨0, [], [], []⟩, [], []⟩

/-- First poll tick with failed sampling. -/
def c5Tick1 : SchedState × GpioState := checkConditions c5State g0 true 0 none

/-- Second consecutive poll tick with failed sampling. -/
def c5Tick2 : SchedState × GpioState := checkConditions c5Tick1.1 c5Tick1.2 true 60000 none

/-- Third consecutive poll tick with failed sampling. -/
def c5Tick3 : SchedState × GpioState := checkConditions c5Tick2.1 c5Tick2.2 true 120000 none

section Claims

/-- Claim C1, counterexample: arming two pending deactivations in
sequence for actuator 1 (two `executeSchedule` fires of the same
schedule) leaves TWO armed `setTimeout`s for that actuator, not
exactly one — the code never cancels or supersedes the earlier one. -/
theorem pendingDeactivation_stacks_counterexample :
    (c1Twice.1.env.timeouts.map fun x => x.rele_id) = [1, 1] ∧
    c1Twice.1.env.timeouts.length ≠ 1 := by
  decide

/-- Claim C1, amended: pending deactivations are stacked, not
superseded — every `runSchedule` fire, and every `runCondition` fire
with `action = activate` and `holdDuration > 0`, appends one fresh
`setTimeout` to the timer layer and leaves every previously armed one
in place, each due at its own `dueAt`. -/
theorem pendingDeactivation_arming_appends :
    (∀ (st : SchedState) (g : GpioState) (ok : Bool) (now : Int) (s : Schedule),
        1 ≤ s.rele_id → s.rele_id ≤ 4 →
        (executeSchedule st g ok now s).1.env.timeouts
          = st.env.timeouts
              ++ [⟨st.env.nextId, now + scheduleDuration s * 1000, s.rele_id, false, true, s.id⟩]) ∧
    (∀ (st : SchedState) (g : GpioState) (ok : Bool) (now : Int) (c : Condition),
        c.action = .activate → 1 ≤ c.rele_id → c.rele_id ≤ 4 → 0 < c.duration →
        (executeCondition st g ok now c).1.env.timeouts
          = st.env.timeouts
              ++ [⟨st.env.nextId, now + c.duration * 1000, c.rele_id, false, false, c.id⟩]) := by
  constructor
  · intro st g ok now s h1 h2
    have hg : ¬(s.rele_id < 1 ∨ 4 < s.rele_id) := by omega
    cases ok <;> simp [executeSchedule, controlRele, hg, setTimeoutAt]
  · intro st g ok now c hact h1 h2 hdur
    have hg : ¬(c.rele_id < 1 ∨ 4 < c.rele_id) := by omega
    cases ok <;> simp [executeCondition, controlRele, hact, hg, hdur, setTimeoutAt]

/-- Claim C1, witness for the amended theorem at concrete inputs. -/
theorem pendingDeactivation_arming_appends_witness :
    (executeSchedule st0 g0 true 0 sA).1.env.timeouts
      = [⟨0, 36000000, 1, false, true, 1⟩] ∧
    (executeCondition st0 g0 true 0 c1Cond).1.env.timeouts
      = [⟨0, 900000, 2, false, false, 5⟩] := by
  constructor
  · have h := pendingDeactivation_arming_appends.1 st0 g0 true 0 sA (by decide) (by decide)
    simpa using h
  · have h := pendingDeactivation_arming_appends.2 st0 g0 true 0 c1Cond rfl
      (by decide) (by decide) (by decide)
    simpa using h

/-- Claim C2: demonstration of the failure on the code.  With one
active schedule and the shipped config, one `restart` after `init`
leaves TWO live cron triggers for that single schedule (tasks 0 and 1:
`stop` only stops the tasks held in `scheduledTasks`, never the
schedule tasks referenced from `activeSchedules`), and a second
`restart` leaves THREE — the live-timer set differs between one and
two restarts, and the schedule fires once per live task per
occurrence. -/
theorem restart_not_idempotent_live_triggers :
    liveScheduleTriggers restartOnce = [0, 1] ∧
    liveScheduleTriggers restartTwice = [0, 1, 2] ∧
    liveScheduleTriggers restartOnce ≠ liveScheduleTriggers restartTwice := by
  decide

/-- Claim C3: demonstration of the failure on the code.  After `init`
with one schedule, one `executeSchedule` fire has armed one pending
deactivation; `stop()` leaves that `setTimeout` armed and the
schedule's cron trigger (task 0) still running, and after the
subsequent `init()` rebuild the old trigger is still live next to the
new one — a trigger registered before `stop()` can still execute after
the rebuild. -/
theorem stop_leaves_trigger_and_timeout_live :
    (executeSchedule initShipped g0 true 0 sA).1.env.timeouts.length = 1 ∧
    (stop (executeSchedule initShipped g0 true 0 sA).1).env.timeouts
      = (executeSchedule initShipped g0 true 0 sA).1.env.timeouts ∧
    liveScheduleTriggers (stop (executeSchedule initShipped g0 true 0 sA).1) = [0] ∧
    liveScheduleTriggers
        (init configBackupEnabled configBackupFrequency
          (stop (executeSchedule initShipped g0 true 0 sA).1) (.ok [sA]) (.ok []))
      = [0, 2] := by
  decide

/-- Claim C4, counterexample: at start = end = 08:00 the code computes
an ON-duration of 0 seconds, while the claim's branch formula
`(24h−T1)+T2` for `T2 ≤ T1` demands 86400. -/
theorem duration_claim_counterexample :
    scheduleDuration sEq = 0 ∧
    claimBranchDuration sEq.start_time sEq.end_time = 86400 ∧
    scheduleDuration sEq ≠ claimBranchDuration sEq.start_time sEq.end_time := by
  decide

/-- Claim C4, amended: for valid times the ON-duration is `T2−T1` when
`T2>T1`, `(24h−T1)+T2` when `T2<T1`, and `0` (not 24h) when `T2=T1` —
exactly `(T2−T1) mod 24h` in seconds. -/
theorem scheduleDuration_mod24h :
    ∀ s : Schedule,
      s.start_time.hour ≤ 23 → s.start_time.minute ≤ 59 →
      s.end_time.hour ≤ 23 → s.end_time.minute ≤ 59 →
      scheduleDuration s
        = (timeSeconds s.end_time - timeSeconds s.start_time) % 86400 := by
  intro s h1 h2 h3 h4
  simp only [scheduleDuration, timeSeconds] at *
  split <;> omega

/-- Claim C4, witness for the amended theorem at 08:00-18:00. -/
theorem scheduleDuration_mod24h_witness :
    scheduleDuration sA = (timeSeconds sA.end_time - timeSeconds sA.start_time) % 86400 :=
  scheduleDuration_mod24h sA (by decide) (by decide) (by decide) (by decide)

/-- Claim C5, counterexample: with one active condition, three
consecutive poll ticks whose sampling fails leave the scheduler state
untouched and make zero relay calls, but they do NOT produce zero log
entries — `readDHT11` appends one error row per failed tick, three in
total. -/
theorem failedSample_logs_counterexample :
    c5Tick3.1 = c5State ∧
    c5Tick3.2.writes = [] ∧
    c5Tick3.2.releStates = g0.releStates ∧
    c5Tick3.2.logs.length = 3 := by
  decide

/-- Claim C5, amended: a poll cycle whose sampling fails (a null
readout, or one with a null temperature or humidity field) is skipped
before any condition is evaluated — the scheduler state, the relay
states and every effect trace except the log are unchanged, so
evaluation resumes normally on the next successful tick — but the
failed sample itself appends exactly one error log entry. -/
theorem failedSample_skips_cycle :
    (∀ (st : SchedState) (g : GpioState) (ok : Bool) (now : Int),
        checkConditions st g ok now none
          = (st, { g with logs := g.logs ++ [⟨.error, .gpioController⟩] })) ∧
    (∀ (st : SchedState) (g : GpioState) (ok : Bool) (now : Int) (r : RawReading),
        r.temperature = none ∨ r.humidity = none →
        checkConditions st g ok now (some r)
          = (st, { g with logs := g.logs ++ [⟨.error, .gpioController⟩] })) := by
  constructor
  · intro st g ok now
    rfl
  · intro st g ok now r hr
    rcases r with ⟨rt, rh⟩
    cases rt <;> cases rh <;>
      first
        | rfl
        | (rcases hr with h | h <;> simp at h)

/-- Claim C5, witness for the amended theorem at concrete inputs. -/
theorem failedSample_skips_cycle_witness :
    checkConditions c5State g0 true 0 none
      = (c5State, { g0 with logs := [⟨.error, .gpioController⟩] }) ∧
    checkConditions c5State g0 true 0 (some ⟨none, some 50⟩)
      = (c5State, { g0 with logs := [⟨.error, .gpioController⟩] }) := by
  constructor
  · simpa using failedSample_skips_cycle.1 c5State g0 true 0
  · simpa using failedSample_skips_cycle.2 c5State g0 true 0 ⟨none, some 50⟩ (Or.inl rfl)

/-- Claim C6: a schedule whose start hour is above 23 or whose start
minute is above 59 never reaches the timer layer — the cron library
rejects the expression, `addSchedule`'s catch logs the error, and the
state (timer environment and rule maps included) is otherwise
unchanged: no task is created. -/
theorem invalid_time_schedule_rejected :
    ∀ (st : SchedState) (s : Schedule),
      23 < s.start_time.hour ∨ 59 < s.start_time.minute →
      addSchedule st s = { st with console := st.console ++ [⟨.error, .scheduler⟩] } := by
  intro st s h
  have hval : cronExprValid (createCronExpression s) = false := by
    simp only [cronExprValid, createCronExpression, Bool.and_eq_false_iff,
      decide_eq_false_iff_not, Nat.not_le]
    rcases h with h | h
    · exact Or.inl (Or.inr h)
    · exact Or.inl (Or.inl h)
  simp [addSchedule, cronSchedule, hval]

/-- Claim C6, witness: start time 24:00 is rejected with a logged
error and no timer. -/
theorem invalid_time_schedule_rejected_witness :
    addSchedule st0 ⟨9, 1, 1, ⟨24, 0⟩, ⟨1, 0⟩⟩
      = { st0 with console := [⟨.error, .scheduler⟩] } := by
  simpa using invalid_time_schedule_rejected st0 ⟨9, 1, 1, ⟨24, 0⟩, ⟨1, 0⟩⟩ (by decide)

/-- Claim C7: for a valid relay id every transition attempt performs
exactly one hardware write (no retry) and unconditionally appends
exactly one log row — severity `info` on success, `error` on failure;
the call returns `true` exactly on success; on failure the in-memory
relay array is unchanged, and only on success is it advanced and a
`rele_states` row persisted. -/
theorem controlRele_transition_logging :
    ∀ (g : GpioState) (writeOk : Bool) (releId : Int) (state : Bool),
      1 ≤ releId → releId ≤ 4 →
      (controlRele g writeOk releId state).1 = some writeOk ∧
      (controlRele g writeOk releId state).2.writes
        = g.writes ++ [(relePins.getD (releId - 1).toNat 0, pinLevelFor state)] ∧
      (controlRele g writeOk releId state).2.logs
        = g.logs ++ [⟨if writeOk then .info else .error, .gpioController⟩] ∧
      (writeOk = false → (controlRele g writeOk releId state).2.releStates = g.releStates) ∧
      (writeOk = true →
        (controlRele g writeOk releId state).2.releStates
          = g.releStates.set (releId - 1).toNat state) ∧
      (controlRele g writeOk releId state).2.releRows
        = g.releRows ++ (if writeOk then [(releId, state)] else []) := by
  intro g ok r s h1 h2
  have hg : ¬(r < 1 ∨ 4 < r) := by omega
  cases ok <;> simp [controlRele, hg]

/-- Claim C7, witness: switching relay 2 on with a succeeding and with
a failing hardware write. -/
theorem controlRele_transition_logging_witness :
    (controlRele g0 true 2 true).1 = some true ∧
    (controlRele g0 false 2 true).2.releStates = g0.releStates := by
  exact ⟨(controlRele_transition_logging g0 true 2 true (by decide) (by decide)).1,
    (controlRele_transition_logging g0 false 2 true (by decide) (by decide)).2.2.2.1 rfl⟩

/-- Claim C8, counterexample: a rule-load failure during `init()` does
NOT block the transition to the running state — with the backup task
disabled (isolating the load path) `init` still ends with
`isRunning = true` despite the failing store; and with the shipped
config a run whose rule load SUCCEEDS ends with `isRunning = false`,
because the invalid backup cron expression `0 24 * * *` (a different
error class) aborts `init` — contradicting both halves of the claim. -/
theorem ruleLoadFailure_counterexample :
    (init false configBackupFrequency st0 (.error ()) (.ok [])).isRunning = true ∧
    initShipped.isRunning = false := by
  decide

/-- Claim C8, amended: failure to load rules from the store during
`init()` is not fatal and does not surface — `loadActiveSchedules`
catches it and logs one console error, after which `init` proceeds
exactly as with an empty rule list (reaching `isRunning = true`
whenever the rest of `init` succeeds, e.g. with the backup task
disabled); no error class aborts the service. -/
theorem ruleLoadFailure_absorbed :
    ∀ st : SchedState,
      (init false 24 st (.error ()) (.ok [])).isRunning = true ∧
      init false 24 st (.error ()) (.ok [])
        = init false 24 { st with console := st.console ++ [⟨.error, .scheduler⟩] }
            (.ok []) (.ok []) := by
  intro st
  exact ⟨rfl, rfl⟩

/-- Claim C9: with operator `==` and threshold 25.0 the evaluation
uses the 0.5 absolute-tolerance band — a current value of 25.4 makes
the condition true, 25.6 makes it false. -/
theorem eq_operator_tolerance_band :
    ∀ (c : Condition) (t h t' h' : ℚ),
      c.operator = .eq → c.threshold_value = 25 →
      (currentValueFor c t h = 127/5 → evaluateCondition c t h = some true) ∧
      (currentValueFor c t' h' = 128/5 → evaluateCondition c t' h' = some false) := by
  intro c t h t' h' hop hth
  unfold evaluateCondition
  rw [hop]
  constructor <;> intro hv <;> rw [hv, hth] <;> norm_num [abs_lt]

/-- Claim C9, witness: a temperature condition at threshold 25 with
samples 25.4 and 25.6. -/
theorem eq_operator_tolerance_band_witness :
    evaluateCondition ⟨7, 1, .temperature, .eq, 25, .activate, 0⟩ (127/5) 60 = some true ∧
    evaluateCondition ⟨7, 1, .temperature, .eq, 25, .activate, 0⟩ (128/5) 60 = some false := by
  have h := eq_operator_tolerance_band ⟨7, 1, .temperature, .eq, 25, .activate, 0⟩
    (127/5) 60 (128/5) 60 rfl rfl
  exact ⟨h.1 rfl, h.2 rfl⟩

/-- Claim C10: for a relay id outside 1..4 both `controlRele` and
`getReleState` throw before touching any pin — `controlRele` returns
the state unchanged with no write attempted — and for an id in 1..4
`getReleState` returns entry `releId − 1` of the in-memory array. -/
theorem releId_range_guard :
    (∀ (g : GpioState) (writeOk : Bool) (releId : Int) (state : Bool),
        releId < 1 ∨ 4 < releId → controlRele g writeOk releId state = (none, g)) ∧
    (∀ (g : GpioState) (releId : Int),
        releId < 1 ∨ 4 < releId → getReleState g releId = none) ∧
    (∀ (g : GpioState) (releId : Int),
        1 ≤ releId → releId ≤ 4 →
        getReleState g releId = some (g.releStates.getD (releId - 1).toNat false)) := by
  refine ⟨?_, ?_, ?_⟩
  · intro g ok r s h
    simp [controlRele, h]
  · intro g r h
    simp [getReleState, h]
  · intro g r h1 h2
    have hg : ¬(r < 1 ∨ 4 < r) := by omega
    simp [getReleState, hg]

/-- Claim C10, witness: relay id 5 is rejected by both entry points
with the state untouched, and id 3 reads array entry 2. -/
theorem releId_range_guard_witness :
    controlRele g0 true 5 true = (none, g0) ∧
    getReleState g0 5 = none ∧
    getReleState g0 3 = some false := by
  refine ⟨releId_range_guard.1 g0 true 5 true (by decide),
    releId_range_guard.2.1 g0 5 (by decide), ?_⟩
  have h := releId_range_guard.2.2 g0 3 (by decide) (by decide)
  simpa using h

end Claims

end Hidro
